import Mathlib

/-!
Shallow embedding of `client/web/src/tracking/eventLogger.ts`.

The TypeScript module is single-threaded and effectful through a small set of
browser facilities: `js-cookie` (an expiring key/value store), `localStorage`,
`window.location`, `document.referrer`, `window.context` flags, plus two
outbound calls (`serverAdmin.trackAction`, `serverAdmin.trackPageView`) and the
registered listeners.  We embed all of that as one explicit state record `S`
threaded through every function, with an `Effect` trace recording the
observable outbound calls (listener notifications and the two `serverAdmin`
calls).  TypeScript `string | undefined` / `string | null` values become
`Option String`; the truthiness of `a || b` (where `undefined`, `null` and the
empty string are falsy) is made explicit by the `tsOrOpt` / `tsStrOr` helpers.

Cookie expiry: `js-cookie` converts a numeric `expires` attribute (days) to a
wall-clock expiry instant.  We keep time in milliseconds: the long-lived
settings use `expires: 365` (days) and the device-session settings
`expires: 0.0208` (days); both convert exactly to the millisecond constants
below.
-/

namespace EventLog

/-- TS `a || b` on `string | undefined` values: `a` unless it is absent or the
empty string. -/
def tsOrOpt (a b : Option String) : Option String :=
  match a with
  | none => b
  | some s => if s = "" then b else some s

/-- TS `a || d` where `d` is a plain string: resolves to a plain string. -/
def tsStrOr (a : Option String) (d : String) : String :=
  match a with
  | none => d
  | some s => if s = "" then d else s

/-- TS truthiness of a `string | undefined` value. -/
def tsTruthy (a : Option String) : Bool :=
  match a with
  | none => false
  | some s => s ≠ ""

/-- TS coercion of a `string | undefined` to a string (used where the source
has already ensured the value is set). -/
def tsStr (a : Option String) : String := a.getD ""

/-- A stored cookie: its value and its absolute expiry instant (ms). -/
structure Cookie where
  value : String
  expires : Nat
deriving DecidableEq, Repr

/-- A URL, split into its base and its query parameters in order.
`searchParams.get` returns the first value for a key. -/
structure Url where
  base : String
  params : List (String × String)
deriving DecidableEq, Repr

/-- `url.searchParams.get k`: first value for `k`, or `null`. -/
def searchParamsGet (u : Url) (k : String) : Option String :=
  (u.params.find? (fun kv => kv.1 = k)).map Prod.snd

/-- `url.searchParams.has k`. -/
def searchParamsHas (u : Url) (k : String) : Bool :=
  (u.params.find? (fun kv => kv.1 = k)).isSome

/-- Render a query-parameter list (used only to give `location.href` a string
value for the URL-valued accessor defaults). -/
def renderParams : List (String × String) → String
  | [] => ""
  | [kv] => kv.1 ++ "=" ++ kv.2
  | kv :: rest => kv.1 ++ "=" ++ kv.2 ++ "&" ++ renderParams rest

/-- `location.href` as a string. -/
def Url.render (u : Url) : String :=
  match u.params with
  | [] => u.base
  | _ => u.base ++ "?" ++ renderParams u.params

/-- Observable outbound calls of the module: listener notification,
`serverAdmin.trackAction` (the external forwarding call of `log`) and
`serverAdmin.trackPageView` (the forwarding call of the page-view paths).
Event-property payloads that never influence control flow are kept as a flat
`(key, value)` list; only `serviceType` and the UTM markers are ever set. -/
inductive Effect where
  | notify (listener : Nat) (label : String)
  | trackAction (label : String) (props : List (String × String))
  | trackPageView (name : String)
deriving DecidableEq, Repr

/-- The whole mutable world the module touches: the `EventLogger` instance
fields, the cookie store, `localStorage`, the page location/referrer, the
clock, the `window.context` flags read by the module, and the trace of
outbound calls made so far.  Listeners are identified by the order they were
registered in (JS `Set` iterates in insertion order). -/
structure S where
  hasStrippedQueryParameters : Bool
  anonymousUserID : String
  cohortID : Option String
  firstSourceURL : Option String
  lastSourceURL : Option String
  deviceID : String
  deviceSessionID : Option String
  eventID : Nat
  listeners : List Nat
  originalReferrer : Option String
  sessionReferrer : Option String
  sessionFirstURL : Option String
  cookies : List (String × Cookie)
  localStore : List (String × String)
  locationHref : Url
  documentReferrer : String
  now : Nat
  userAgentIsBot : Bool
  sourcegraphDotComMode : Bool
  trace : List Effect
deriving DecidableEq, Repr

def ANONYMOUS_USER_ID_KEY : String := "sourcegraphAnonymousUid"
def COHORT_ID_KEY : String := "sourcegraphCohortId"
def FIRST_SOURCE_URL_KEY : String := "sourcegraphSourceUrl"
def LAST_SOURCE_URL_KEY : String := "sourcegraphRecentSourceUrl"
def DEVICE_ID_KEY : String := "sourcegraphDeviceId"
def DEVICE_SESSION_ID_KEY : String := "sourcegraphSessionId"
def ORIGINAL_REFERRER_KEY : String := "originalReferrer"
def MKTO_ORIGINAL_REFERRER_KEY : String := "_mkto_referrer"
def SESSION_REFERRER_KEY : String := "sessionReferrer"
def SESSION_FIRST_URL_KEY : String := "sessionFirstUrl"

/-- `cookieSettings`: `expires: 365` days, in milliseconds. -/
def cookieTTLms : Nat := 365 * 86400000

/-- `deviceSessionCookieSettings`: `expires: 0.0208` days, in milliseconds
(0.0208 · 86400000 = 1797120 exactly). -/
def deviceSessionTTLms : Nat := 1797120

/-- Association lookup in the cookie store. -/
def assocGet (l : List (String × Cookie)) (k : String) : Option Cookie :=
  match l with
  | [] => none
  | kv :: rest => if kv.1 = k then some kv.2 else assocGet rest k

/-- `cookies.get k`: the stored value, if any. -/
def cookieGet (s : S) (k : String) : Option String :=
  (assocGet s.cookies k).map Cookie.value

/-- The expiry instant currently recorded for a cookie. -/
def cookieExpiry (s : S) (k : String) : Option Nat :=
  (assocGet s.cookies k).map Cookie.expires

/-- Remove every record for a key from the cookie store. -/
def cookieErase : List (String × Cookie) → String → List (String × Cookie)
  | [], _ => []
  | kv :: rest, k => if kv.1 = k then cookieErase rest k else kv :: cookieErase rest k

/-- `cookies.set k v settings`: replaces the record for `k`, with expiry
`now + ttl`. -/
def cookieSet (s : S) (k v : String) (ttl : Nat) : S :=
  { s with cookies := (k, ⟨v, s.now + ttl⟩) :: cookieErase s.cookies k }

/-- `localStorage.getItem k`. -/
def localGet (s : S) (k : String) : Option String :=
  (s.localStore.find? (fun kv => kv.1 = k)).map Prod.snd

/-- Remove every record for a key from the flat key/value store. -/
def storeErase : List (String × String) → String → List (String × String)
  | [], _ => []
  | kv :: rest, k => if kv.1 = k then storeErase rest k else kv :: storeErase rest k

/-- `localStorage.removeItem k`. -/
def localRemove (s : S) (k : String) : S :=
  { s with localStore := storeErase s.localStore k }

/-- The passage of time between calls (the environment's step, not a source
function): advances the clock by `dt` milliseconds. -/
def tick (s : S) (dt : Nat) : S := { s with now := s.now + dt }

/-- `EventLogger.getAnonymousUserID`: returns the field set at
initialization; no store access. -/
def getAnonymousUserID (s : S) : S × String := (s, s.anonymousUserID)

/-- `EventLogger.getCohortID`: returns the field set at initialization; no
store access. -/
def getCohortID (s : S) : S × Option String := (s, s.cohortID)

/-- `EventLogger.getDeviceID`: returns the field set at initialization; no
store access. -/
def getDeviceID (s : S) : S × String := (s, s.deviceID)

/-- `EventLogger.getFirstSourceURL`. -/
def getFirstSourceURL (s : S) : S × String :=
  if s.sourcegraphDotComMode = false then (s, "")
  else
    let firstSourceURL :=
      tsStrOr (tsOrOpt s.firstSourceURL (cookieGet s FIRST_SOURCE_URL_KEY)) s.locationHref.render
    let s := { s with firstSourceURL := some firstSourceURL }
    let s := cookieSet s FIRST_SOURCE_URL_KEY firstSourceURL cookieTTLms
    (s, firstSourceURL)

/-- `EventLogger.getLastSourceURL`. -/
def getLastSourceURL (s : S) : S × String :=
  if s.sourcegraphDotComMode = false then (s, "")
  else
    let lastSourceURL :=
      tsStrOr (tsOrOpt s.lastSourceURL (cookieGet s LAST_SOURCE_URL_KEY)) s.locationHref.render
    let s := { s with lastSourceURL := some lastSourceURL }
    let s := cookieSet s LAST_SOURCE_URL_KEY lastSourceURL cookieTTLms
    (s, lastSourceURL)

/-- `EventLogger.getOriginalReferrer`: cookie, then the legacy `_mkto_referrer`
cookie, then `document.referrer`. -/
def getOriginalReferrer (s : S) : S × String :=
  if s.sourcegraphDotComMode = false then (s, "")
  else
    let originalReferrer :=
      tsStrOr
        (tsOrOpt (tsOrOpt s.originalReferrer (cookieGet s ORIGINAL_REFERRER_KEY))
          (cookieGet s MKTO_ORIGINAL_REFERRER_KEY))
        s.documentReferrer
    let s := { s with originalReferrer := some originalReferrer }
    let s := cookieSet s ORIGINAL_REFERRER_KEY originalReferrer cookieTTLms
    (s, originalReferrer)

/-- `EventLogger.getSessionReferrer`. -/
def getSessionReferrer (s : S) : S × String :=
  if s.sourcegraphDotComMode = false then (s, "")
  else
    let sessionReferrer :=
      tsStrOr (tsOrOpt s.sessionReferrer (cookieGet s SESSION_REFERRER_KEY)) s.documentReferrer
    let s := { s with sessionReferrer := some sessionReferrer }
    let s := cookieSet s SESSION_REFERRER_KEY sessionReferrer deviceSessionTTLms
    (s, sessionReferrer)

/-- `EventLogger.getSessionFirstURL`. -/
def getSessionFirstURL (s : S) : S × String :=
  if s.sourcegraphDotComMode = false then (s, "")
  else
    let sessionFirstURL :=
      tsStrOr (tsOrOpt s.sessionFirstURL (cookieGet s SESSION_FIRST_URL_KEY)) s.locationHref.render
    let s := { s with sessionFirstURL := some sessionFirstURL }
    let s := cookieSet s SESSION_FIRST_URL_KEY sessionFirstURL deviceSessionTTLms
    (s, sessionFirstURL)

/-- `EventLogger.getDeviceSessionID`: reads the cookie first, falling back to
the in-memory field, then to `getAnonymousUserID()`; always rewrites the
cookie (renewing expiry) and the in-memory field. -/
def getDeviceSessionID (s : S) : S × String :=
  let deviceSessionID := tsOrOpt (cookieGet s DEVICE_SESSION_ID_KEY) s.deviceSessionID
  let deviceSessionID := tsStrOr deviceSessionID (getAnonymousUserID s).2
  let s := cookieSet s DEVICE_SESSION_ID_KEY deviceSessionID deviceSessionTTLms
  ({ s with deviceSessionID := some deviceSessionID }, deviceSessionID)

/-- `EventLogger.resetSessionCookieExpiration`: refreshes the session cookie
via `getDeviceSessionID` and reports whether a non-empty id was obtained. -/
def resetSessionCookieExpiration (s : S) : S × Bool :=
  let p := getDeviceSessionID s
  if p.2 = "" then ({ p.1 with deviceSessionID := some p.2 }, false)
  else (p.1, true)

/-- `EventLogger.log`: renews the session, notifies every listener, then — in
a non-bot context and with a non-empty label — forwards via
`serverAdmin.trackAction`.  (`logToConsole` only writes to the debug console
and is elided.) -/
def log (s : S) (label : String) (props : List (String × String)) : S :=
  let s := (resetSessionCookieExpiration s).1
  let s := { s with trace := s.trace ++ s.listeners.map (fun l => Effect.notify l label) }
  if s.userAgentIsBot = true ∨ label = "" then s
  else { s with trace := s.trace ++ [Effect.trackAction label props] }

/-- The UTM query-parameter markers extracted by `pageViewQueryParameters`. -/
structure UTMMarker where
  utm_campaign : Option String
  utm_source : Option String
  utm_medium : Option String
  utm_term : Option String
  utm_content : Option String
deriving DecidableEq, Repr

/-- TS `x || undefined` on a `string | null` value. -/
def tsOrUndef (a : Option String) : Option String :=
  match a with
  | none => none
  | some s => if s = "" then none else some s

/-- TS `utmCampaign?.match(/^cloud-onboarding-email(.*)$/)` viewed as a
truthiness test: the regex matches exactly the strings starting with
`cloud-onboarding-email`. -/
def matchCloudOnboarding : Option String → Bool
  | none => false
  | some c => String.isPrefixOf "cloud-onboarding-email" c

/-- Serialize the present UTM fields as the event-property payload. -/
def optProp (k : String) (v : Option String) : List (String × String) :=
  match v with
  | none => []
  | some x => [(k, x)]

def utmToProps (m : UTMMarker) : List (String × String) :=
  optProp "utm_campaign" m.utm_campaign ++ optProp "utm_source" m.utm_source ++
    optProp "utm_medium" m.utm_medium ++ optProp "utm_term" m.utm_term ++
    optProp "utm_content" m.utm_content

/-- `pageViewQueryParameters(url)`: computes the UTM marker record and fires
at most one UTM-mapped event through `eventLogger.log`, by the if/else-if
chain of the source. -/
def pageViewQueryParameters (s : S) (url : Url) : S × UTMMarker :=
  let utmSource := searchParamsGet url "utm_source"
  let utmCampaign := searchParamsGet url "utm_campaign"
  let utmMedium := searchParamsGet url "utm_medium"
  let utmProps : UTMMarker :=
    { utm_campaign := tsOrUndef utmCampaign
      utm_source := tsOrUndef utmSource
      utm_medium := tsOrUndef utmMedium
      utm_term := tsOrUndef (searchParamsGet url "utm_term")
      utm_content := tsOrUndef (searchParamsGet url "utm_content") }
  let s :=
    if utmSource = some "saved-search-email" then log s "SavedSearchEmailClicked" []
    else if utmSource = some "saved-search-slack" then log s "SavedSearchSlackClicked" []
    else if utmSource = some "code-monitoring-email" then log s "CodeMonitorEmailLinkClicked" []
    else if utmSource = some "hubspot" ∧ matchCloudOnboarding utmCampaign = true then
      log s "UTMCampaignLinkClicked" (utmToProps utmProps)
    else if (tsStr utmSource) ∈
        ["safari-extension", "firefox-extension", "chrome-extension",
          "phabricator-integration", "bitbucket-integration", "gitlab-integration"] then
      log s "UTMCodeHostIntegration" (utmToProps utmProps)
    else if utmMedium = some "VSCODE" ∧ utmCampaign = some "vsce-sign-up" then
      log s "VSCODESignUpLinkClicked" (utmToProps utmProps)
    else s
  (s, utmProps)

/-- Drop the query parameters whose key is in the given list. -/
def paramsStrip : List (String × String) → List String → List (String × String)
  | [], _ => []
  | kv :: rest, ps => if ps.contains kv.1 then paramsStrip rest ps else kv :: paramsStrip rest ps

/-- Modelled from the spec: `stripURLParameters` lives in `tracking/util`,
which is not under `src/`; per the spec it destructively rewrites the browser
navigation state to the given URL with the listed query parameters removed. -/
def stripURLParameters (s : S) (url : Url) (ps : List String) : S :=
  { s with locationHref := { url with params := paramsStrip url.params ps } }

/-- `handleQueryEvents(url)`: emits the signup- and signin-completed events when
the corresponding markers are present (carrying the marker's value as the
`serviceType` property, for both the private and the public payload), then
strips the handled markers from the URL. -/
def handleQueryEvents (s : S) (url : Url) : S :=
  let s :=
    if searchParamsHas url "signup" = true then
      log s "web:auth:signUpCompleted" [("serviceType", tsStr (searchParamsGet url "signup"))]
    else s
  let s :=
    if searchParamsHas url "signin" = true then
      log s "web:auth:signInCompleted" [("serviceType", tsStr (searchParamsGet url "signin"))]
    else s
  stripURLParameters s url ["utm_campaign", "utm_source", "utm_medium", "signup", "signin"]

/-- `EventLogger.logViewEventInternal`: evaluates the page-view query
parameters (which may fire a UTM event), forwards via
`serverAdmin.trackPageView`, and — once per page load, gated by
`hasStrippedQueryParameters` — handles and strips the query-string markers. -/
def logViewEventInternal (s : S) (eventName : String) : S :=
  let s := (pageViewQueryParameters s s.locationHref).1
  let s := { s with trace := s.trace ++ [Effect.trackPageView eventName] }
  if s.hasStrippedQueryParameters = true then s
  else
    let s := handleQueryEvents s s.locationHref
    { s with hasStrippedQueryParameters := true }

/-- `EventLogger.logPageView`: renews the session, then short-circuits on a
bot user agent or an empty name, else forwards under the `...Viewed` name. -/
def logPageView (s : S) (eventName : String) : S :=
  let s := (resetSessionCookieExpiration s).1
  if s.userAgentIsBot = true ∨ eventName = "" then s
  else logViewEventInternal s (eventName ++ "Viewed")

/-- `EventLogger.logViewEvent` (deprecated path): same shape as
`logPageView` but prepends `View` instead of appending `Viewed`. -/
def logViewEvent (s : S) (pageTitle : String) : S :=
  let s := (resetSessionCookieExpiration s).1
  if s.userAgentIsBot = true ∨ pageTitle = "" then s
  else logViewEventInternal s ("View" ++ pageTitle)

/-- A day number (in days since the Unix epoch) falls on a Monday iff it is
congruent to 4 mod 7: day 0 (1970-01-01) was a Thursday, so day 4
(1970-01-05) was a Monday. -/
def isMonday (d : Nat) : Bool := d % 7 = 4

/-- Modelled from the spec: `getPreviousMonday` lives in `tracking/util`,
which is not under `src/`; per the spec it returns the label of the most
recent Monday on or before the given date (date-only precision).  We work
with day numbers since the Unix epoch. -/
def getPreviousMonday (d : Nat) : Nat := d - (d + 3) % 7

/-- The day number of a clock instant in milliseconds. -/
def dayOf (nowMs : Nat) : Nat := nowMs / 86400000

/-- Modelled from the spec: the cohort label of a day (the real
`getPreviousMonday` renders a date string; we label the day number). -/
def mondayLabel (m : Nat) : String := "day-" ++ Nat.repr m

/-- `EventLogger.initializeLogParameters`, run once from the constructor.
`freshUuid` stands for the value `uuid.v4()` would return if called. -/
def initializeLogParameters (s : S) (freshUuid : String) : S :=
  let anonymousUserID0 : Option String :=
    tsOrOpt (cookieGet s ANONYMOUS_USER_ID_KEY) (localGet s ANONYMOUS_USER_ID_KEY)
  let cohortID0 : Option String := cookieGet s COHORT_ID_KEY
  let s := { s with deviceSessionID := some "" }
  let p : String × Option String :=
    if tsTruthy anonymousUserID0 = false then
      (freshUuid, some (mondayLabel (getPreviousMonday (dayOf s.now))))
    else (tsStr anonymousUserID0, cohortID0)
  let anonymousUserID := p.1
  let cohortID := p.2
  let s := cookieSet s ANONYMOUS_USER_ID_KEY anonymousUserID cookieTTLms
  let s := localRemove s ANONYMOUS_USER_ID_KEY
  let s :=
    if tsTruthy cohortID = true then cookieSet s COHORT_ID_KEY (tsStr cohortID) cookieTTLms
    else s
  let deviceID0 := cookieGet s DEVICE_ID_KEY
  let deviceID := if tsTruthy deviceID0 = false then anonymousUserID else tsStr deviceID0
  let s := cookieSet s DEVICE_ID_KEY deviceID cookieTTLms
  let deviceSessionID0 := tsOrOpt (cookieGet s DEVICE_SESSION_ID_KEY) s.deviceSessionID
  let deviceSessionID :=
    if tsTruthy deviceSessionID0 = false then anonymousUserID else tsStr deviceSessionID0
  let s := cookieSet s DEVICE_SESSION_ID_KEY deviceSessionID deviceSessionTTLms
  let originalReferrer0 := cookieGet s ORIGINAL_REFERRER_KEY
  let q :=
    if tsTruthy originalReferrer0 = false then getOriginalReferrer s
    else (s, tsStr originalReferrer0)
  let s := q.1
  let originalReferrer := q.2
  let q :=
    if tsTruthy (cookieGet s SESSION_REFERRER_KEY) = false then getSessionReferrer s
    else (s, tsStr (cookieGet s SESSION_REFERRER_KEY))
  let s := q.1
  let sessionReferrer := q.2
  let q :=
    if tsTruthy (cookieGet s SESSION_FIRST_URL_KEY) = false then getSessionFirstURL s
    else (s, tsStr (cookieGet s SESSION_FIRST_URL_KEY))
  let s := q.1
  let sessionFirstURL := q.2
  { s with
      anonymousUserID := anonymousUserID
      cohortID := cohortID
      deviceID := deviceID
      deviceSessionID := some deviceSessionID
      originalReferrer := some originalReferrer
      sessionReferrer := some sessionReferrer
      sessionFirstURL := some sessionFirstURL }

/-- A `{platform, version}` payload of the browser-extension presence
channels. -/
structure ExtensionPayload where
  platform : Option String
  version : Option String
deriving DecidableEq, Repr

/-- Model of the rxjs pipeline `browserExtensionMessageReceived`: `merge` of
the DOM-marker channel (one-shot: `observeQuerySelector` with timeout, errors
swallowed to an empty channel by `catchError`) and the custom-event channel
(one-shot by `take(1)`).  Each channel is therefore an optional timed
emission; `merge` interleaves the emissions of both channels in time order
(the DOM-marker channel first on a tie, as it is subscribed first). -/
def mergedEmissions (a b : Option (Nat × ExtensionPayload)) : List (Nat × ExtensionPayload) :=
  match a, b with
  | none, none => []
  | some x, none => [x]
  | none, some y => [y]
  | some x, some y => if x.1 ≤ y.1 then [x, y] else [y, x]

/-- What a subscriber subscribing at time `t` observes from the
`publishReplay(1)` / `refCount` multicast (the stream is held live from
construction by the constructor's own subscription, so intermediate values
are never dropped by disconnection): the replayed most recent past emission,
if any, followed by every emission from `t` on. -/
def observedBy (emissions : List (Nat × ExtensionPayload)) (t : Nat) : List ExtensionPayload :=
  let past := emissions.filter (fun e => decide (e.1 < t))
  let future := emissions.filter (fun e => decide (t ≤ e.1))
  (match past.getLast? with
   | some e => [e.2]
   | none => []) ++ future.map Prod.snd

/-- The value `getDeviceSessionID` resolves: the session cookie, else the
in-memory field, else the anonymous user id. -/
def sessionIdOf (s : S) : String :=
  tsStrOr (tsOrOpt (cookieGet s DEVICE_SESSION_ID_KEY) s.deviceSessionID) s.anonymousUserID

/-- The labels of the six UTM-mapped events of `pageViewQueryParameters`. -/
def utmEventNames : List String :=
  ["SavedSearchEmailClicked", "SavedSearchSlackClicked", "CodeMonitorEmailLinkClicked",
    "UTMCampaignLinkClicked", "UTMCodeHostIntegration", "VSCODESignUpLinkClicked"]

/-- An effect is a forwarding call of a UTM-mapped event. -/
def isUtmAction : Effect → Bool
  | .trackAction l _ => utmEventNames.contains l
  | _ => false

/-- The UTM-mapped forwarding calls in a trace. -/
def utmActions (t : List Effect) : List Effect := t.filter isUtmAction

/-- The labels of the signup- and signin-completed events of
`handleQueryEvents`. -/
def authEventNames : List String := ["web:auth:signUpCompleted", "web:auth:signInCompleted"]

/-- An effect is a forwarding call of a signup- or signin-completed event. -/
def isAuthAction : Effect → Bool
  | .trackAction l _ => authEventNames.contains l
  | _ => false

/-- The signup- and signin-completed forwarding calls in a trace. -/
def authActions (t : List Effect) : List Effect := t.filter isAuthAction

/-- A concrete page URL for concrete-state theorems. -/
def baseUrl : Url := ⟨"https://sourcegraph.test/x", []⟩

/-- A concrete post-initialization state: dotcom mode, one registered
listener, an anonymous id `anon`, no cookies, a human user agent. -/
def baseS : S :=
  { hasStrippedQueryParameters := false
    anonymousUserID := "anon"
    cohortID := none
    firstSourceURL := none
    lastSourceURL := none
    deviceID := "anon"
    deviceSessionID := some ""
    eventID := 0
    listeners := [0]
    originalReferrer := none
    sessionReferrer := none
    sessionFirstURL := none
    cookies := []
    localStore := []
    locationHref := baseUrl
    documentReferrer := ""
    now := 1700000000000
    userAgentIsBot := false
    sourcegraphDotComMode := true
    trace := [] }

lemma assocGet_cookieErase_ne (l : List (String × Cookie)) (k k' : String) (h : k' ≠ k) :
    assocGet (cookieErase l k) k' = assocGet l k' := by
  induction l with
  | nil => rfl
  | cons kv rest ih =>
    simp only [cookieErase]
    by_cases hk : kv.1 = k
    · rw [if_pos hk, ih]
      have hne : ¬ kv.1 = k' := fun hc => h (hc ▸ hk)
      simp [assocGet, hne]
    · rw [if_neg hk]
      simp only [assocGet]
      rw [ih]

@[simp] lemma cookieGet_set_self (s : S) (k v : String) (ttl : Nat) :
    cookieGet (cookieSet s k v ttl) k = some v := by
  simp [cookieGet, cookieSet, assocGet]

lemma cookieGet_set_ne (s : S) (k k' v : String) (ttl : Nat) (h : k' ≠ k) :
    cookieGet (cookieSet s k v ttl) k' = cookieGet s k' := by
  simp [cookieGet, cookieSet, assocGet, Ne.symm h, assocGet_cookieErase_ne _ _ _ h]

@[simp] lemma cookieExpiry_set_self (s : S) (k v : String) (ttl : Nat) :
    cookieExpiry (cookieSet s k v ttl) k = some (s.now + ttl) := by
  simp [cookieExpiry, cookieSet, assocGet]

@[simp] lemma cookieGet_localRemove (s : S) (k k' : String) :
    cookieGet (localRemove s k) k' = cookieGet s k' := rfl

@[simp] lemma localGet_cookieSet (s : S) (k v : String) (ttl : Nat) (k' : String) :
    localGet (cookieSet s k v ttl) k' = localGet s k' := rfl

@[simp] lemma localRemove_localStore (s : S) (k : String) :
    (localRemove s k).localStore = storeErase s.localStore k := rfl

@[simp] lemma mem_storeErase (l : List (String × String)) (k : String) (p : String × String) :
    p ∈ storeErase l k ↔ p ∈ l ∧ ¬ p.1 = k := by
  induction l with
  | nil => simp [storeErase]
  | cons kv rest ih =>
    by_cases hk : kv.1 = k
    · simp only [storeErase, if_pos hk, ih, List.mem_cons]
      constructor
      · exact fun h => ⟨Or.inr h.1, h.2⟩
      · rintro ⟨h | h, hne⟩
        · exact absurd (h ▸ hk) hne
        · exact ⟨h, hne⟩
    · simp only [storeErase, if_neg hk, List.mem_cons, ih]
      constructor
      · rintro (h | h)
        · exact ⟨Or.inl h, h ▸ hk⟩
        · exact ⟨Or.inr h.1, h.2⟩
      · rintro ⟨h | h, hne⟩
        · exact Or.inl h
        · exact Or.inr ⟨h, hne⟩

@[simp] lemma storeErase_find_none (l : List (String × String)) (k : String) :
    (storeErase l k).find? (fun kv => kv.1 = k) = none := by
  induction l with
  | nil => rfl
  | cons kv rest ih =>
    by_cases hk : kv.1 = k
    · rw [storeErase, if_pos hk]
      exact ih
    · rw [storeErase, if_neg hk]
      simp [List.find?, hk, ih]

@[simp] lemma localGet_localRemove_self (s : S) (k : String) :
    localGet (localRemove s k) k = none := by
  simp [localGet, localRemove, storeErase_find_none]

lemma getDeviceSessionID_eq (s : S) :
    getDeviceSessionID s =
      ({ s with
          deviceSessionID := some (sessionIdOf s)
          cookies := (DEVICE_SESSION_ID_KEY, ⟨sessionIdOf s, s.now + deviceSessionTTLms⟩) ::
            cookieErase s.cookies DEVICE_SESSION_ID_KEY },
        sessionIdOf s) := rfl

lemma resetSession_eq (s : S) :
    (resetSessionCookieExpiration s).1 = (getDeviceSessionID s).1 := by
  rw [resetSessionCookieExpiration]
  split <;> rfl

@[simp] lemma resetSession_trace (s : S) :
    (resetSessionCookieExpiration s).1.trace = s.trace := by
  rw [resetSession_eq, getDeviceSessionID_eq]

@[simp] lemma resetSession_listeners (s : S) :
    (resetSessionCookieExpiration s).1.listeners = s.listeners := by
  rw [resetSession_eq, getDeviceSessionID_eq]

@[simp] lemma resetSession_bot (s : S) :
    (resetSessionCookieExpiration s).1.userAgentIsBot = s.userAgentIsBot := by
  rw [resetSession_eq, getDeviceSessionID_eq]

@[simp] lemma resetSession_now (s : S) :
    (resetSessionCookieExpiration s).1.now = s.now := by
  rw [resetSession_eq, getDeviceSessionID_eq]

@[simp] lemma resetSession_href (s : S) :
    (resetSessionCookieExpiration s).1.locationHref = s.locationHref := by
  rw [resetSession_eq, getDeviceSessionID_eq]

@[simp] lemma resetSession_latch (s : S) :
    (resetSessionCookieExpiration s).1.hasStrippedQueryParameters =
      s.hasStrippedQueryParameters := by
  rw [resetSession_eq, getDeviceSessionID_eq]

@[simp] lemma resetSession_anon (s : S) :
    (resetSessionCookieExpiration s).1.anonymousUserID = s.anonymousUserID := by
  rw [resetSession_eq, getDeviceSessionID_eq]

@[simp] lemma resetSession_cohort (s : S) :
    (resetSessionCookieExpiration s).1.cohortID = s.cohortID := by
  rw [resetSession_eq, getDeviceSessionID_eq]

@[simp] lemma resetSession_deviceID (s : S) :
    (resetSessionCookieExpiration s).1.deviceID = s.deviceID := by
  rw [resetSession_eq, getDeviceSessionID_eq]

@[simp] lemma resetSession_localStore (s : S) :
    (resetSessionCookieExpiration s).1.localStore = s.localStore := by
  rw [resetSession_eq, getDeviceSessionID_eq]

@[simp] lemma resetSession_dotcom (s : S) :
    (resetSessionCookieExpiration s).1.sourcegraphDotComMode = s.sourcegraphDotComMode := by
  rw [resetSession_eq, getDeviceSessionID_eq]

/-- The trace of a `log` call: listener notifications in registration order,
then — outside a bot context and with a non-empty label — the forwarding
call. -/
lemma log_trace (s : S) (label : String) (props : List (String × String)) :
    (log s label props).trace =
      s.trace ++ s.listeners.map (fun l => Effect.notify l label) ++
        (if s.userAgentIsBot = true ∨ label = "" then [] else [Effect.trackAction label props]) := by
  rw [log]
  split
  · next h =>
    rw [if_pos (by simpa using h)]
    simp
  · next h =>
    rw [if_neg (by simpa using h)]
    simp

@[simp] lemma log_listeners (s : S) (label : String) (props : List (String × String)) :
    (log s label props).listeners = s.listeners := by
  rw [log]; split <;> simp

@[simp] lemma log_bot (s : S) (label : String) (props : List (String × String)) :
    (log s label props).userAgentIsBot = s.userAgentIsBot := by
  rw [log]; split <;> simp

@[simp] lemma log_latch (s : S) (label : String) (props : List (String × String)) :
    (log s label props).hasStrippedQueryParameters = s.hasStrippedQueryParameters := by
  rw [log]; split <;> simp

@[simp] lemma log_href (s : S) (label : String) (props : List (String × String)) :
    (log s label props).locationHref = s.locationHref := by
  rw [log]; split <;> simp

@[simp] lemma log_anon (s : S) (label : String) (props : List (String × String)) :
    (log s label props).anonymousUserID = s.anonymousUserID := by
  rw [log]; split <;> simp

@[simp] lemma log_cohort (s : S) (label : String) (props : List (String × String)) :
    (log s label props).cohortID = s.cohortID := by
  rw [log]; split <;> simp

@[simp] lemma log_deviceID (s : S) (label : String) (props : List (String × String)) :
    (log s label props).deviceID = s.deviceID := by
  rw [log]; split <;> simp

lemma mondayLabel_ne_empty (m : Nat) : mondayLabel m ≠ "" := by
  intro h
  have hl := congrArg String.length h
  simp [mondayLabel, String.length_append] at hl
  exact absurd hl.1 (by decide)

lemma getPreviousMonday_spec (d : Nat) (h : 4 ≤ d) :
    isMonday (getPreviousMonday d) = true ∧ getPreviousMonday d ≤ d ∧
      ∀ m, isMonday m = true → m ≤ d → m ≤ getPreviousMonday d := by
  unfold isMonday getPreviousMonday
  refine ⟨?_, ?_, ?_⟩
  · simp only [decide_eq_true_eq]
    omega
  · omega
  · intro m hm hle
    simp only [decide_eq_true_eq] at hm
    omega

lemma getOriginalReferrer_cookieGet_ne (s : S) (k : String) (h : k ≠ ORIGINAL_REFERRER_KEY) :
    cookieGet (getOriginalReferrer s).1 k = cookieGet s k := by
  rw [getOriginalReferrer]
  split
  · rfl
  · exact cookieGet_set_ne _ _ _ _ _ h

lemma getSessionReferrer_cookieGet_ne (s : S) (k : String) (h : k ≠ SESSION_REFERRER_KEY) :
    cookieGet (getSessionReferrer s).1 k = cookieGet s k := by
  rw [getSessionReferrer]
  split
  · rfl
  · exact cookieGet_set_ne _ _ _ _ _ h

lemma getSessionFirstURL_cookieGet_ne (s : S) (k : String) (h : k ≠ SESSION_FIRST_URL_KEY) :
    cookieGet (getSessionFirstURL s).1 k = cookieGet s k := by
  rw [getSessionFirstURL]
  split
  · rfl
  · exact cookieGet_set_ne _ _ _ _ _ h

@[simp] lemma getOriginalReferrer_localStore (s : S) :
    (getOriginalReferrer s).1.localStore = s.localStore := by
  rw [getOriginalReferrer]; split <;> rfl

@[simp] lemma getSessionReferrer_localStore (s : S) :
    (getSessionReferrer s).1.localStore = s.localStore := by
  rw [getSessionReferrer]; split <;> rfl

@[simp] lemma getSessionFirstURL_localStore (s : S) :
    (getSessionFirstURL s).1.localStore = s.localStore := by
  rw [getSessionFirstURL]; split <;> rfl

@[simp] lemma assocGet_cookieSet (s : S) (k v : String) (ttl : Nat) (k' : String) :
    assocGet (cookieSet s k v ttl).cookies k' =
      if k = k' then some ⟨v, s.now + ttl⟩ else assocGet s.cookies k' := by
  by_cases h : k = k'
  · subst h; simp [cookieSet, assocGet]
  · rw [if_neg h]
    simp [cookieSet, assocGet, h, assocGet_cookieErase_ne _ _ _ (Ne.symm h)]

@[simp] lemma cookieSet_localStore (s : S) (k v : String) (ttl : Nat) :
    (cookieSet s k v ttl).localStore = s.localStore := rfl

@[simp] lemma cookieSet_now (s : S) (k v : String) (ttl : Nat) :
    (cookieSet s k v ttl).now = s.now := rfl

@[simp] lemma cookieSet_dotcom (s : S) (k v : String) (ttl : Nat) :
    (cookieSet s k v ttl).sourcegraphDotComMode = s.sourcegraphDotComMode := rfl

@[simp] lemma cookieSet_href (s : S) (k v : String) (ttl : Nat) :
    (cookieSet s k v ttl).locationHref = s.locationHref := rfl

@[simp] lemma cookieSet_referrer (s : S) (k v : String) (ttl : Nat) :
    (cookieSet s k v ttl).documentReferrer = s.documentReferrer := rfl

@[simp] lemma cookieSet_trace (s : S) (k v : String) (ttl : Nat) :
    (cookieSet s k v ttl).trace = s.trace := rfl

@[simp] lemma cookieSet_anon (s : S) (k v : String) (ttl : Nat) :
    (cookieSet s k v ttl).anonymousUserID = s.anonymousUserID := rfl

@[simp] lemma cookieSet_cohort (s : S) (k v : String) (ttl : Nat) :
    (cookieSet s k v ttl).cohortID = s.cohortID := rfl

@[simp] lemma cookieSet_deviceID (s : S) (k v : String) (ttl : Nat) :
    (cookieSet s k v ttl).deviceID = s.deviceID := rfl

@[simp] lemma cookieSet_dsid (s : S) (k v : String) (ttl : Nat) :
    (cookieSet s k v ttl).deviceSessionID = s.deviceSessionID := rfl

@[simp] lemma cookieSet_bot (s : S) (k v : String) (ttl : Nat) :
    (cookieSet s k v ttl).userAgentIsBot = s.userAgentIsBot := rfl

@[simp] lemma cookieSet_latch (s : S) (k v : String) (ttl : Nat) :
    (cookieSet s k v ttl).hasStrippedQueryParameters = s.hasStrippedQueryParameters := rfl

@[simp] lemma cookieSet_listeners (s : S) (k v : String) (ttl : Nat) :
    (cookieSet s k v ttl).listeners = s.listeners := rfl

@[simp] lemma cookieSet_firstSource (s : S) (k v : String) (ttl : Nat) :
    (cookieSet s k v ttl).firstSourceURL = s.firstSourceURL := rfl

@[simp] lemma cookieSet_lastSource (s : S) (k v : String) (ttl : Nat) :
    (cookieSet s k v ttl).lastSourceURL = s.lastSourceURL := rfl

@[simp] lemma cookieSet_origRef (s : S) (k v : String) (ttl : Nat) :
    (cookieSet s k v ttl).originalReferrer = s.originalReferrer := rfl

@[simp] lemma cookieSet_sessRef (s : S) (k v : String) (ttl : Nat) :
    (cookieSet s k v ttl).sessionReferrer = s.sessionReferrer := rfl

@[simp] lemma cookieSet_sessFirst (s : S) (k v : String) (ttl : Nat) :
    (cookieSet s k v ttl).sessionFirstURL = s.sessionFirstURL := rfl

@[simp] lemma localRemove_anon (s : S) (k : String) :
    (localRemove s k).anonymousUserID = s.anonymousUserID := rfl

@[simp] lemma localRemove_cohort (s : S) (k : String) :
    (localRemove s k).cohortID = s.cohortID := rfl

@[simp] lemma localRemove_deviceID (s : S) (k : String) :
    (localRemove s k).deviceID = s.deviceID := rfl

@[simp] lemma localRemove_dsid (s : S) (k : String) :
    (localRemove s k).deviceSessionID = s.deviceSessionID := rfl

@[simp] lemma localRemove_bot (s : S) (k : String) :
    (localRemove s k).userAgentIsBot = s.userAgentIsBot := rfl

@[simp] lemma localRemove_latch (s : S) (k : String) :
    (localRemove s k).hasStrippedQueryParameters = s.hasStrippedQueryParameters := rfl

@[simp] lemma localRemove_listeners (s : S) (k : String) :
    (localRemove s k).listeners = s.listeners := rfl

@[simp] lemma localRemove_trace (s : S) (k : String) :
    (localRemove s k).trace = s.trace := rfl

@[simp] lemma localRemove_cookies (s : S) (k : String) :
    (localRemove s k).cookies = s.cookies := rfl

@[simp] lemma localRemove_now (s : S) (k : String) :
    (localRemove s k).now = s.now := rfl

@[simp] lemma localRemove_dotcom (s : S) (k : String) :
    (localRemove s k).sourcegraphDotComMode = s.sourcegraphDotComMode := rfl

@[simp] lemma localRemove_href (s : S) (k : String) :
    (localRemove s k).locationHref = s.locationHref := rfl

@[simp] lemma localRemove_referrer (s : S) (k : String) :
    (localRemove s k).documentReferrer = s.documentReferrer := rfl

@[simp] lemma getOriginalReferrer_assocGet (s : S) (k : String)
    (h : ¬ k = ORIGINAL_REFERRER_KEY) :
    assocGet (getOriginalReferrer s).1.cookies k = assocGet s.cookies k := by
  rw [getOriginalReferrer]
  split
  · rfl
  · simp [Ne.symm h]

@[simp] lemma getSessionReferrer_assocGet (s : S) (k : String)
    (h : ¬ k = SESSION_REFERRER_KEY) :
    assocGet (getSessionReferrer s).1.cookies k = assocGet s.cookies k := by
  rw [getSessionReferrer]
  split
  · rfl
  · simp [Ne.symm h]

@[simp] lemma getSessionFirstURL_assocGet (s : S) (k : String)
    (h : ¬ k = SESSION_FIRST_URL_KEY) :
    assocGet (getSessionFirstURL s).1.cookies k = assocGet s.cookies k := by
  rw [getSessionFirstURL]
  split
  · rfl
  · simp [Ne.symm h]

/-- C4: on a startup with no prior storage state (no anonymous-id cookie, no
legacy local-store value, no cohort, device-id or device-session cookies),
`initializeLogParameters` resolves a freshly generated anonymous id, a cohort
id labelling the most recent Monday on or before the resolution instant, and
a device id equal to that anonymous id — both in the instance fields and in
the persisted cookie records. -/
theorem fresh_startup_resolution (s : S) (u : String)
    (h1 : cookieGet s ANONYMOUS_USER_ID_KEY = none)
    (h2 : localGet s ANONYMOUS_USER_ID_KEY = none)
    (h3 : cookieGet s COHORT_ID_KEY = none)
    (h4 : cookieGet s DEVICE_ID_KEY = none)
    (h5 : cookieGet s DEVICE_SESSION_ID_KEY = none)
    (hday : 4 ≤ dayOf s.now) :
    (initializeLogParameters s u).anonymousUserID = u ∧
      cookieGet (initializeLogParameters s u) ANONYMOUS_USER_ID_KEY = some u ∧
      (initializeLogParameters s u).deviceID = u ∧
      cookieGet (initializeLogParameters s u) DEVICE_ID_KEY = some u ∧
      ∃ m : Nat,
        (initializeLogParameters s u).cohortID = some (mondayLabel m) ∧
        cookieGet (initializeLogParameters s u) COHORT_ID_KEY = some (mondayLabel m) ∧
        isMonday m = true ∧ m ≤ dayOf s.now ∧
        ∀ m2, isMonday m2 = true → m2 ≤ dayOf s.now → m2 ≤ m := by
  have h1' : assocGet s.cookies "sourcegraphAnonymousUid" = none := by
    rw [cookieGet, Option.map_eq_none'] at h1; exact h1
  have h2' : s.localStore.find? (fun kv => kv.1 = "sourcegraphAnonymousUid") = none := by
    rw [localGet, Option.map_eq_none'] at h2; exact h2
  have h3' : assocGet s.cookies "sourcegraphCohortId" = none := by
    rw [cookieGet, Option.map_eq_none'] at h3; exact h3
  have h4' : assocGet s.cookies "sourcegraphDeviceId" = none := by
    rw [cookieGet, Option.map_eq_none'] at h4; exact h4
  have h5' : assocGet s.cookies "sourcegraphSessionId" = none := by
    rw [cookieGet, Option.map_eq_none'] at h5; exact h5
  obtain ⟨hm1, hm2, hm3⟩ := getPreviousMonday_spec (dayOf s.now) hday
  refine ⟨?_, ?_, ?_, ?_, getPreviousMonday (dayOf s.now), ?_, ?_, hm1, hm2, hm3⟩ <;>
    (simp [initializeLogParameters, cookieGet, localGet, h1', h2', h3', h4', h5',
      tsOrOpt, tsTruthy, tsStr, mondayLabel_ne_empty, ANONYMOUS_USER_ID_KEY, COHORT_ID_KEY,
      FIRST_SOURCE_URL_KEY, LAST_SOURCE_URL_KEY, DEVICE_ID_KEY, DEVICE_SESSION_ID_KEY,
      ORIGINAL_REFERRER_KEY, MKTO_ORIGINAL_REFERRER_KEY, SESSION_REFERRER_KEY,
      SESSION_FIRST_URL_KEY]) <;>
    (split <;> split <;> split <;>
      simp [mondayLabel_ne_empty, ANONYMOUS_USER_ID_KEY, COHORT_ID_KEY,
        FIRST_SOURCE_URL_KEY, LAST_SOURCE_URL_KEY, DEVICE_ID_KEY, DEVICE_SESSION_ID_KEY,
        ORIGINAL_REFERRER_KEY, MKTO_ORIGINAL_REFERRER_KEY, SESSION_REFERRER_KEY,
        SESSION_FIRST_URL_KEY])

/-- C4 witness: the resolution on a concrete empty-storage state. -/
theorem fresh_startup_resolution_witness :
    (initializeLogParameters { baseS with anonymousUserID := "", deviceID := "" }
        "uuid-1").anonymousUserID = "uuid-1" ∧
      (initializeLogParameters { baseS with anonymousUserID := "", deviceID := "" }
        "uuid-1").deviceID = "uuid-1" := by
  have h := fresh_startup_resolution
    { baseS with anonymousUserID := "", deviceID := "" } "uuid-1"
    (by decide) (by decide) (by decide) (by decide) (by decide) (by decide)
  exact ⟨h.1, h.2.2.1⟩

lemma assocGet_ite (c : Prop) [Decidable c] (l1 l2 : List (String × Cookie)) (k : String) :
    assocGet (if c then l1 else l2) k = if c then assocGet l1 k else assocGet l2 k := by
  split <;> rfl

lemma init_cookies_anon (s : S) (u : String) :
    assocGet (initializeLogParameters s u).cookies ANONYMOUS_USER_ID_KEY =
      some ⟨(initializeLogParameters s u).anonymousUserID, s.now + cookieTTLms⟩ := by
  simp [initializeLogParameters, apply_ite S.cookies, apply_ite (@Prod.fst S String),
    assocGet_ite, ANONYMOUS_USER_ID_KEY, COHORT_ID_KEY, FIRST_SOURCE_URL_KEY,
    LAST_SOURCE_URL_KEY, DEVICE_ID_KEY, DEVICE_SESSION_ID_KEY, ORIGINAL_REFERRER_KEY,
    MKTO_ORIGINAL_REFERRER_KEY, SESSION_REFERRER_KEY, SESSION_FIRST_URL_KEY]

lemma init_localStore (s : S) (u : String) :
    (initializeLogParameters s u).localStore =
      storeErase s.localStore ANONYMOUS_USER_ID_KEY := by
  simp [initializeLogParameters, apply_ite S.localStore, apply_ite (@Prod.fst S String)]

/-- C5: when the anonymous id exists only in the legacy local store, the
resolved identity is that value, it is persisted to the long-lived cookie
record, and the legacy key is gone afterwards; moreover the legacy key is
removed unconditionally on every resolution, whatever the storage state. -/
theorem legacy_store_migration (s : S) (u v : String)
    (h1 : cookieGet s ANONYMOUS_USER_ID_KEY = none)
    (h2 : localGet s ANONYMOUS_USER_ID_KEY = some v)
    (hv : v ≠ "") :
    (initializeLogParameters s u).anonymousUserID = v ∧
      cookieGet (initializeLogParameters s u) ANONYMOUS_USER_ID_KEY = some v ∧
      localGet (initializeLogParameters s u) ANONYMOUS_USER_ID_KEY = none ∧
      ∀ (s2 : S) (u2 : String),
        localGet (initializeLogParameters s2 u2) ANONYMOUS_USER_ID_KEY = none := by
  have h1' : assocGet s.cookies "sourcegraphAnonymousUid" = none := by
    rw [cookieGet, Option.map_eq_none'] at h1; exact h1
  have hclear : ∀ (s2 : S) (u2 : String),
      localGet (initializeLogParameters s2 u2) ANONYMOUS_USER_ID_KEY = none := by
    intro s2 u2
    rw [localGet, init_localStore]
    simp
  rw [localGet, Option.map_eq_some'] at h2
  obtain ⟨p, hp, hpv⟩ := h2
  have hp' : s.localStore.find? (fun kv => kv.1 = "sourcegraphAnonymousUid") = some p := hp
  have hfield : (initializeLogParameters s u).anonymousUserID = v := by
    simp [initializeLogParameters, cookieGet, localGet, h1', hp', hpv, hv,
      tsOrOpt, tsTruthy, tsStr, ANONYMOUS_USER_ID_KEY, COHORT_ID_KEY,
      FIRST_SOURCE_URL_KEY, LAST_SOURCE_URL_KEY, DEVICE_ID_KEY, DEVICE_SESSION_ID_KEY,
      ORIGINAL_REFERRER_KEY, MKTO_ORIGINAL_REFERRER_KEY, SESSION_REFERRER_KEY,
      SESSION_FIRST_URL_KEY]
  refine ⟨hfield, ?_, hclear s u, hclear⟩
  rw [cookieGet, init_cookies_anon, hfield]
  rfl

/-- C5 witness: migration from a concrete legacy-store-only state. -/
theorem legacy_store_migration_witness :
    (initializeLogParameters
        { baseS with localStore := [("sourcegraphAnonymousUid", "legacy-id")] }
        "uuid-2").anonymousUserID = "legacy-id" ∧
      localGet
        (initializeLogParameters
          { baseS with localStore := [("sourcegraphAnonymousUid", "legacy-id")] }
          "uuid-2") ANONYMOUS_USER_ID_KEY = none := by
  have h := legacy_store_migration
    { baseS with localStore := [("sourcegraphAnonymousUid", "legacy-id")] }
    "uuid-2" "legacy-id" (by decide) (by decide) (by decide)
  exact ⟨h.1, h.2.2.1⟩

/-- C6: when a long-lived anonymous id already exists but no cohort record
does, resolution leaves the cohort id absent, both in the instance field and
in the store; and with any existing (truthy) anonymous id the cohort field is
never computed — it mirrors whatever the cohort record held. -/
theorem no_cohort_backfill (s : S) (u a : String)
    (ha : cookieGet s ANONYMOUS_USER_ID_KEY = some a)
    (hA : a ≠ "")
    (hc : cookieGet s COHORT_ID_KEY = none) :
    (initializeLogParameters s u).cohortID = none ∧
      cookieGet (initializeLogParameters s u) COHORT_ID_KEY = none ∧
      (initializeLogParameters s u).anonymousUserID = a ∧
      ∀ (s2 : S) (u2 : String) (a2 : String),
        cookieGet s2 ANONYMOUS_USER_ID_KEY = some a2 → a2 ≠ "" →
        (initializeLogParameters s2 u2).cohortID = cookieGet s2 COHORT_ID_KEY := by
  have hgen : ∀ (s2 : S) (u2 : String) (a2 : String),
      cookieGet s2 ANONYMOUS_USER_ID_KEY = some a2 → a2 ≠ "" →
      (initializeLogParameters s2 u2).cohortID = cookieGet s2 COHORT_ID_KEY := by
    intro s2 u2 a2 ha2 hA2
    rw [cookieGet, Option.map_eq_some'] at ha2
    obtain ⟨c, hcook, hcv⟩ := ha2
    have hcook' : assocGet s2.cookies "sourcegraphAnonymousUid" = some c := hcook
    simp [initializeLogParameters, cookieGet, hcook', hcv, hA2, tsOrOpt, tsTruthy, tsStr,
      ANONYMOUS_USER_ID_KEY, COHORT_ID_KEY]
  have ha' := ha
  rw [cookieGet, Option.map_eq_some'] at ha'
  obtain ⟨c, hcook, hcv⟩ := ha'
  have hcook' : assocGet s.cookies "sourcegraphAnonymousUid" = some c := hcook
  have hc' : assocGet s.cookies "sourcegraphCohortId" = none := by
    rw [cookieGet, Option.map_eq_none'] at hc; exact hc
  refine ⟨?_, ?_, ?_, hgen⟩ <;>
    (simp [initializeLogParameters, cookieGet, localGet, hcook', hcv, hA, hc',
      tsOrOpt, tsTruthy, tsStr, ANONYMOUS_USER_ID_KEY, COHORT_ID_KEY,
      FIRST_SOURCE_URL_KEY, LAST_SOURCE_URL_KEY, DEVICE_ID_KEY, DEVICE_SESSION_ID_KEY,
      ORIGINAL_REFERRER_KEY, MKTO_ORIGINAL_REFERRER_KEY, SESSION_REFERRER_KEY,
      SESSION_FIRST_URL_KEY]) <;>
    (repeat' split) <;>
    (simp [hA, hc', hcook', hcv, ANONYMOUS_USER_ID_KEY, COHORT_ID_KEY, FIRST_SOURCE_URL_KEY,
      LAST_SOURCE_URL_KEY, DEVICE_ID_KEY, DEVICE_SESSION_ID_KEY, ORIGINAL_REFERRER_KEY,
      MKTO_ORIGINAL_REFERRER_KEY, SESSION_REFERRER_KEY, SESSION_FIRST_URL_KEY])

lemma tsStrOr_ne_empty (o : Option String) (d : String) (hd : d ≠ "") :
    tsStrOr o d ≠ "" := by
  cases o with
  | none => exact hd
  | some x =>
    by_cases hx : x = "" <;> simp [tsStrOr, hx, hd]

lemma tsStrOr_of_truthy (o : Option String) (d : String) (h : tsTruthy o = true) :
    tsStrOr o d ≠ "" := by
  cases o with
  | none => simp [tsTruthy] at h
  | some x =>
    simp [tsTruthy] at h
    simp [tsStrOr, h]

lemma tsTruthy_tsOrOpt_left (a b : Option String) (h : tsTruthy a = true) :
    tsTruthy (tsOrOpt a b) = true := by
  cases a with
  | none => simp [tsTruthy] at h
  | some x =>
    simp [tsTruthy] at h
    simp [tsOrOpt, tsTruthy, h]

lemma tsTruthy_tsOrOpt_right (a b : Option String) (h : tsTruthy b = true) :
    tsTruthy (tsOrOpt a b) = true := by
  cases a with
  | none => simpa [tsOrOpt] using h
  | some x =>
    by_cases hx : x = ""
    · simp only [tsOrOpt, if_pos hx]
      exact h
    · simp [tsOrOpt, tsTruthy, hx]

lemma sessionIdOf_ne_empty (s : S)
    (h : s.anonymousUserID ≠ "" ∨ tsTruthy (cookieGet s DEVICE_SESSION_ID_KEY) = true ∨
      tsTruthy s.deviceSessionID = true) :
    sessionIdOf s ≠ "" := by
  rw [sessionIdOf]
  rcases h with h | h | h
  · exact tsStrOr_ne_empty _ _ h
  · exact tsStrOr_of_truthy _ _ (tsTruthy_tsOrOpt_left _ _ h)
  · exact tsStrOr_of_truthy _ _ (tsTruthy_tsOrOpt_right _ _ h)

/-- C7: every session renewal stamps the device-session record with the
expiry `now + TTL`, strictly in the future; a window stamped by a renewal at
or before `now` is never shortened; a second renewal `dt` later yields an
expiry no earlier than the first; and renewal reports success whenever any
identity (anonymous id, session cookie, or cached session id) exists. -/
theorem session_renewal_monotonic (s : S) (dt : Nat) :
    cookieExpiry (resetSessionCookieExpiration s).1 DEVICE_SESSION_ID_KEY =
        some (s.now + deviceSessionTTLms) ∧
      s.now < s.now + deviceSessionTTLms ∧
      (∀ t0, cookieExpiry s DEVICE_SESSION_ID_KEY = some (t0 + deviceSessionTTLms) →
        t0 ≤ s.now → t0 + deviceSessionTTLms ≤ s.now + deviceSessionTTLms) ∧
      cookieExpiry (resetSessionCookieExpiration
          (tick (resetSessionCookieExpiration s).1 dt)).1 DEVICE_SESSION_ID_KEY =
        some (s.now + dt + deviceSessionTTLms) ∧
      s.now + deviceSessionTTLms ≤ s.now + dt + deviceSessionTTLms ∧
      ((s.anonymousUserID ≠ "" ∨ tsTruthy (cookieGet s DEVICE_SESSION_ID_KEY) = true ∨
          tsTruthy s.deviceSessionID = true) →
        (resetSessionCookieExpiration s).2 = true) := by
  refine ⟨?_, ?_, ?_, ?_, ?_, ?_⟩
  · rw [resetSession_eq, getDeviceSessionID_eq]
    simp [cookieExpiry, assocGet]
  · have : 0 < deviceSessionTTLms := by rw [deviceSessionTTLms]; omega
    omega
  · intro t0 _ ht
    omega
  · rw [resetSession_eq (tick (resetSessionCookieExpiration s).1 dt),
      getDeviceSessionID_eq]
    simp [cookieExpiry, assocGet, tick]
  · omega
  · intro h
    rw [resetSessionCookieExpiration, getDeviceSessionID_eq]
    simp [sessionIdOf_ne_empty s h]

/-- C7 witness: two successive renewals on a concrete state. -/
theorem session_renewal_monotonic_witness :
    cookieExpiry (resetSessionCookieExpiration baseS).1 DEVICE_SESSION_ID_KEY =
        some (baseS.now + deviceSessionTTLms) ∧
      (resetSessionCookieExpiration baseS).2 = true := by
  have h := session_renewal_monotonic baseS 5
  exact ⟨h.1, h.2.2.2.2.2 (Or.inl (by decide))⟩

/-- C1 counterexample: in a bot context, `logPageView` still performs the
session-renewal cookie write before its bot check — at this concrete state
the device-session cookie is absent before the call and present after it, so
the claim's "returns before even querying session renewal, so no
session-cookie renewal write occurs" is false. -/
theorem pageview_bot_renewal_write_counterexample :
    cookieGet (logPageView { baseS with userAgentIsBot := true } "Home")
        DEVICE_SESSION_ID_KEY = some "anon" ∧
      cookieGet { baseS with userAgentIsBot := true } DEVICE_SESSION_ID_KEY = none := by
  decide

/-- C1 amended: in a bot context or with an empty label/name, the generic
`log` path still notifies every registered listener and appends no external
forwarding call, while both page-view paths perform the session renewal (its
session-cookie write included) and only then return, doing nothing else. -/
theorem bot_emission_paths (s : S) (label name title : String)
    (props : List (String × String))
    (hl : s.userAgentIsBot = true ∨ label = "")
    (hn : s.userAgentIsBot = true ∨ name = "")
    (ht : s.userAgentIsBot = true ∨ title = "") :
    (log s label props).trace =
        s.trace ++ s.listeners.map (fun l => Effect.notify l label) ∧
      logPageView s name = (resetSessionCookieExpiration s).1 ∧
      logViewEvent s title = (resetSessionCookieExpiration s).1 ∧
      cookieGet (logPageView s name) DEVICE_SESSION_ID_KEY = some (sessionIdOf s) := by
  have hn' : (resetSessionCookieExpiration s).1.userAgentIsBot = true ∨ name = "" := by
    rw [resetSession_bot]; exact hn
  have ht' : (resetSessionCookieExpiration s).1.userAgentIsBot = true ∨ title = "" := by
    rw [resetSession_bot]; exact ht
  have hpv : logPageView s name = (resetSessionCookieExpiration s).1 := by
    simp only [logPageView, if_pos hn']
  refine ⟨?_, hpv, ?_, ?_⟩
  · rw [log_trace, if_pos (by simpa using hl)]
    simp
  · simp only [logViewEvent, if_pos ht']
  · rw [hpv, resetSession_eq, getDeviceSessionID_eq]
    simp [cookieGet, assocGet]

/-- C1 witness: the amended behaviour at a concrete bot state. -/
theorem bot_emission_paths_witness :
    (log { baseS with userAgentIsBot := true } "Click" []).trace =
        ({ baseS with userAgentIsBot := true } : S).trace ++
          ({ baseS with userAgentIsBot := true } : S).listeners.map
            (fun l => Effect.notify l "Click") ∧
      logPageView { baseS with userAgentIsBot := true } "Home" =
        (resetSessionCookieExpiration { baseS with userAgentIsBot := true }).1 := by
  have h := bot_emission_paths { baseS with userAgentIsBot := true } "Click" "Home" "Home" []
    (Or.inl rfl) (Or.inl rfl) (Or.inl rfl)
  exact ⟨h.1, h.2.1⟩

lemma filter_notifies (p : Effect → Bool) (hp : ∀ i lab, p (Effect.notify i lab) = false)
    (l : List Nat) (label : String) :
    (l.map (fun i => Effect.notify i label)).filter p = [] := by
  induction l with
  | nil => rfl
  | cons i rest ih => simp [hp, ih]

/-- The filtered trace of one `log` call: the base trace's matches, plus the
forwarding call when it happens and matches. -/
lemma log_filter_trace (p : Effect → Bool) (hp : ∀ i lab, p (Effect.notify i lab) = false)
    (s : S) (label : String) (props : List (String × String)) :
    ((log s label props).trace).filter p =
      s.trace.filter p ++
        (if s.userAgentIsBot = true ∨ label = "" then []
         else [Effect.trackAction label props].filter p) := by
  rw [log_trace, List.filter_append, List.filter_append, filter_notifies p hp]
  simp [apply_ite (List.filter p)]

lemma log_utmActions_le (s : S) (label : String) (props : List (String × String)) :
    (utmActions (log s label props).trace).length ≤ (utmActions s.trace).length + 1 := by
  rw [utmActions, log_filter_trace isUtmAction (fun i lab => rfl), List.length_append]
  have : ((if s.userAgentIsBot = true ∨ label = "" then []
      else [Effect.trackAction label props].filter isUtmAction)).length ≤ 1 := by
    split
    · simp
    · cases h : isUtmAction (Effect.trackAction label props) <;> simp [List.filter, h]
  rw [utmActions]
  omega

lemma log_utmActions_hit (s : S) (label : String) (props : List (String × String))
    (hbot : s.userAgentIsBot = false) (hlab : ¬ label = "")
    (hmem : isUtmAction (Effect.trackAction label props) = true) :
    utmActions (log s label props).trace =
      utmActions s.trace ++ [Effect.trackAction label props] := by
  rw [utmActions, log_filter_trace isUtmAction (fun i lab => rfl),
    if_neg (by simp [hbot, hlab]), utmActions]
  simp [List.filter, hmem]

/-- C8: one evaluation of the page-view query-parameter logic forwards at
most one UTM-mapped event; a URL carrying
`utm_source=saved-search-slack` (outside a bot context) forwards exactly
`SavedSearchSlackClicked` and no other UTM-mapped event; and the table's
first entry preempts every later one — a `saved-search-email` source forwards
only `SavedSearchEmailClicked`, whatever the other UTM markers say. -/
theorem utm_first_match_single (s : S) (url : Url) :
    (utmActions ((pageViewQueryParameters s url).1.trace)).length ≤
        (utmActions s.trace).length + 1 ∧
      (s.userAgentIsBot = false →
        searchParamsGet url "utm_source" = some "saved-search-slack" →
        utmActions ((pageViewQueryParameters s url).1.trace) =
          utmActions s.trace ++ [Effect.trackAction "SavedSearchSlackClicked" []]) ∧
      (s.userAgentIsBot = false →
        searchParamsGet url "utm_source" = some "saved-search-email" →
        utmActions ((pageViewQueryParameters s url).1.trace) =
          utmActions s.trace ++ [Effect.trackAction "SavedSearchEmailClicked" []]) := by
  refine ⟨?_, ?_, ?_⟩
  · simp only [pageViewQueryParameters]
    repeat' split
    all_goals first
      | exact log_utmActions_le _ _ _
      | exact Nat.le_succ _
  · intro hbot hsrc
    simp only [pageViewQueryParameters, hsrc]
    rw [if_pos trivial]
    exact log_utmActions_hit s _ [] hbot (by decide) (by decide)
  · intro hbot hsrc
    simp only [pageViewQueryParameters, hsrc]
    rw [if_pos trivial]
    exact log_utmActions_hit s _ [] hbot (by decide) (by decide)

/-- C8 witness: the slack-marker URL at a concrete state. -/
theorem utm_first_match_single_witness :
    utmActions ((pageViewQueryParameters baseS
        ⟨"https://sourcegraph.test/x", [("utm_source", "saved-search-slack")]⟩).1.trace) =
      utmActions baseS.trace ++ [Effect.trackAction "SavedSearchSlackClicked" []] := by
  exact (utm_first_match_single baseS
    ⟨"https://sourcegraph.test/x", [("utm_source", "saved-search-slack")]⟩).2.1
    (by decide) (by decide)

@[simp] lemma pvqp_latch (s : S) (url : Url) :
    (pageViewQueryParameters s url).1.hasStrippedQueryParameters =
      s.hasStrippedQueryParameters := by
  simp only [pageViewQueryParameters]
  repeat' split
  all_goals simp

@[simp] lemma pvqp_bot (s : S) (url : Url) :
    (pageViewQueryParameters s url).1.userAgentIsBot = s.userAgentIsBot := by
  simp only [pageViewQueryParameters]
  repeat' split
  all_goals simp

@[simp] lemma pvqp_href (s : S) (url : Url) :
    (pageViewQueryParameters s url).1.locationHref = s.locationHref := by
  simp only [pageViewQueryParameters]
  repeat' split
  all_goals simp

lemma authActions_log_miss (s : S) (label : String) (props : List (String × String))
    (h : isAuthAction (Effect.trackAction label props) = false) :
    authActions (log s label props).trace = authActions s.trace := by
  rw [authActions, log_filter_trace isAuthAction (fun i lab => rfl), authActions]
  split <;> simp [List.filter, h]

lemma authActions_log_hit (s : S) (label : String) (props : List (String × String))
    (hbot : s.userAgentIsBot = false) (hlab : ¬ label = "")
    (hmem : isAuthAction (Effect.trackAction label props) = true) :
    authActions (log s label props).trace =
      authActions s.trace ++ [Effect.trackAction label props] := by
  rw [authActions, log_filter_trace isAuthAction (fun i lab => rfl),
    if_neg (by simp [hbot, hlab]), authActions]
  simp [List.filter, hmem]

lemma pvqp_authActions (s : S) (url : Url) :
    authActions ((pageViewQueryParameters s url).1.trace) = authActions s.trace := by
  simp only [pageViewQueryParameters]
  repeat' split
  all_goals first
    | rfl
    | exact authActions_log_miss _ _ _ rfl

lemma authActions_trackPageView (t : List Effect) (n : String) :
    authActions (t ++ [Effect.trackPageView n]) = authActions t := by
  rw [authActions, List.filter_append, authActions]
  simp [List.filter, isAuthAction]

@[simp] lemma stripURLParameters_trace (s : S) (url : Url) (ps : List String) :
    (stripURLParameters s url ps).trace = s.trace := rfl

@[simp] lemma stripURLParameters_href (s : S) (url : Url) (ps : List String) :
    (stripURLParameters s url ps).locationHref =
      { url with params := paramsStrip url.params ps } := rfl

lemma paramsStrip_find_none (l : List (String × String)) (ps : List String) (k : String)
    (h : ps.contains k = true) :
    (paramsStrip l ps).find? (fun kv => kv.1 = k) = none := by
  induction l with
  | nil => rfl
  | cons kv rest ih =>
    by_cases hk : ps.contains kv.1 = true
    · rw [paramsStrip, if_pos hk]
      exact ih
    · rw [paramsStrip, if_neg hk]
      have hne : ¬ kv.1 = k := fun he => hk (he ▸ h)
      simp [List.find?, hne, ih]

lemma logViewEventInternal_first (s : S) (n : String)
    (hlatch : s.hasStrippedQueryParameters = false) :
    logViewEventInternal s n =
      { handleQueryEvents
          { (pageViewQueryParameters s s.locationHref).1 with
              trace := (pageViewQueryParameters s s.locationHref).1.trace ++
                [Effect.trackPageView n] }
          s.locationHref
        with hasStrippedQueryParameters := true } := by
  simp only [logViewEventInternal]
  rw [if_neg (by simp [hlatch])]
  simp [pvqp_href]

lemma logViewEventInternal_latched (s : S) (n : String)
    (hlatch : s.hasStrippedQueryParameters = true) :
    logViewEventInternal s n =
      { (pageViewQueryParameters s s.locationHref).1 with
          trace := (pageViewQueryParameters s s.locationHref).1.trace ++
            [Effect.trackPageView n] } := by
  simp only [logViewEventInternal]
  rw [if_pos (by simp [hlatch])]

/-- C9: on the first page-view emission of a page load with
`signup=github` in the URL, exactly one signup-completed forwarding call with
`serviceType = github` is made, the latch is set, and the rewritten URL no
longer carries `signup`; any later page-view emission in the same page load
makes no further signup- or signin-completed call. -/
theorem signup_event_once_per_load (s : S) (n m : String)
    (hlatch : s.hasStrippedQueryParameters = false)
    (hbot : s.userAgentIsBot = false)
    (hsignup : searchParamsGet s.locationHref "signup" = some "github")
    (hsignin : searchParamsHas s.locationHref "signin" = false) :
    authActions (logViewEventInternal s n).trace =
        authActions s.trace ++
          [Effect.trackAction "web:auth:signUpCompleted" [("serviceType", "github")]] ∧
      (logViewEventInternal s n).hasStrippedQueryParameters = true ∧
      searchParamsHas (logViewEventInternal s n).locationHref "signup" = false ∧
      authActions (logViewEventInternal (logViewEventInternal s n) m).trace =
        authActions (logViewEventInternal s n).trace := by
  have hu : searchParamsHas s.locationHref "signup" = true := by
    rw [searchParamsHas]
    rw [searchParamsGet] at hsignup
    rcases hfind : s.locationHref.params.find? (fun kv => kv.1 = "signup") with _ | p
    · rw [hfind] at hsignup
      simp at hsignup
    · rw [hfind]
      rfl
  have hserv : tsStr (searchParamsGet s.locationHref "signup") = "github" := by
    rw [hsignup]; rfl
  rw [logViewEventInternal_first s n hlatch]
  set sb : S :=
    { (pageViewQueryParameters s s.locationHref).1 with
        trace := (pageViewQueryParameters s s.locationHref).1.trace ++
          [Effect.trackPageView n] } with hsb
  have hsb_bot : sb.userAgentIsBot = false := by
    rw [hsb]
    simp [hbot]
  have hsb_auth : authActions sb.trace = authActions s.trace :=
    (authActions_trackPageView _ _).trans (pvqp_authActions _ _)
  have hstep : handleQueryEvents sb s.locationHref =
      stripURLParameters (log sb "web:auth:signUpCompleted" [("serviceType", "github")])
        s.locationHref ["utm_campaign", "utm_source", "utm_medium", "signup", "signin"] := by
    simp only [handleQueryEvents]
    rw [if_pos hu, if_neg (by simp [hsignin]), hserv]
  refine ⟨?_, rfl, ?_, ?_⟩
  · show authActions (handleQueryEvents sb s.locationHref).trace = _
    rw [hstep, stripURLParameters_trace,
      authActions_log_hit sb "web:auth:signUpCompleted" [("serviceType", "github")]
        hsb_bot (by decide) rfl,
      hsb_auth]
  · show searchParamsHas (handleQueryEvents sb s.locationHref).locationHref "signup" = false
    rw [hstep, stripURLParameters_href, searchParamsHas]
    rw [show ({ s.locationHref with
        params := paramsStrip s.locationHref.params
          ["utm_campaign", "utm_source", "utm_medium", "signup", "signin"] } : Url).params =
      paramsStrip s.locationHref.params
        ["utm_campaign", "utm_source", "utm_medium", "signup", "signin"] from rfl]
    rw [paramsStrip_find_none _ _ _ (by decide)]
    rfl
  · rw [logViewEventInternal_latched _ m rfl]
    exact (authActions_trackPageView _ _).trans (pvqp_authActions _ _)

/-- C9 witness: the signup-marker URL at a concrete page load. -/
theorem signup_event_once_per_load_witness :
    authActions (logViewEventInternal
        { baseS with locationHref := ⟨"https://sourcegraph.test/x", [("signup", "github")]⟩ }
        "HomeViewed").trace =
      authActions ({ baseS with
          locationHref := ⟨"https://sourcegraph.test/x", [("signup", "github")]⟩ } : S).trace ++
        [Effect.trackAction "web:auth:signUpCompleted" [("serviceType", "github")]] := by
  exact (signup_event_once_per_load
    { baseS with locationHref := ⟨"https://sourcegraph.test/x", [("signup", "github")]⟩ }
    "HomeViewed" "OtherViewed" (by decide) (by decide) (by decide) (by decide)).1

/-- C3 counterexample: when both presence channels resolve (the DOM-marker
channel at time 1, the custom-event channel at time 2), a subscriber attached
from time 0 observes both payloads — the later channel's result is not
disregarded, and the payload is not observed exactly once. -/
theorem presence_first_wins_counterexample :
    observedBy (mergedEmissions (some (1, ⟨some "chrome-extension", some "1.0"⟩))
        (some (2, ⟨some "firefox-extension", some "2.0"⟩))) 0 =
      [⟨some "chrome-extension", some "1.0"⟩, ⟨some "firefox-extension", some "2.0"⟩] ∧
      (observedBy (mergedEmissions (some (1, ⟨some "chrome-extension", some "1.0"⟩))
        (some (2, ⟨some "firefox-extension", some "2.0"⟩))) 0).length ≠ 1 := by
  decide

/-- C3 amended: the two channels are merged, not raced.  When only one
channel resolves, every subscriber — attached before or after the emission —
observes exactly that payload once; when both resolve, a subscriber attached
before the first emission observes both payloads in time order, while a
subscriber attached after both observes only the most recent payload, exactly
once. -/
theorem presence_merge_replay (x y : Nat × ExtensionPayload) (t : Nat) :
    observedBy (mergedEmissions (some x) none) t = [x.2] ∧
      observedBy (mergedEmissions none (some y)) t = [y.2] ∧
      (t ≤ x.1 → x.1 ≤ y.1 → observedBy (mergedEmissions (some x) (some y)) t = [x.2, y.2]) ∧
      (x.1 ≤ y.1 → y.1 < t → observedBy (mergedEmissions (some x) (some y)) t = [y.2]) := by
  refine ⟨?_, ?_, ?_, ?_⟩
  · by_cases h : x.1 < t
    · simp [observedBy, mergedEmissions, h]
    · simp [observedBy, mergedEmissions, h, Nat.le_of_not_lt h]
  · by_cases h : y.1 < t
    · simp [observedBy, mergedEmissions, h]
    · simp [observedBy, mergedEmissions, h, Nat.le_of_not_lt h]
  · intro ht hxy
    have h1 : ¬ x.1 < t := by omega
    have h2 : ¬ y.1 < t := by omega
    simp [observedBy, mergedEmissions, hxy, h1, h2, Nat.le_of_not_lt h1, Nat.le_of_not_lt h2]
  · intro hxy ht
    have h1 : x.1 < t := by omega
    have h2 : ¬ t ≤ y.1 := by omega
    have h3 : ¬ t ≤ x.1 := by omega
    simp [observedBy, mergedEmissions, hxy, h1, ht, h2, h3]

/-- C3 witness: both channels resolving, with an early subscriber, at a
concrete input. -/
theorem presence_merge_replay_witness :
    observedBy (mergedEmissions (some (1, ⟨some "chrome-extension", some "1.0"⟩))
        (some (2, ⟨some "firefox-extension", some "2.0"⟩))) 0 =
      [(⟨some "chrome-extension", some "1.0"⟩ : ExtensionPayload),
        ⟨some "firefox-extension", some "2.0"⟩] := by
  exact (presence_merge_replay (1, ⟨some "chrome-extension", some "1.0"⟩)
    (2, ⟨some "firefox-extension", some "2.0"⟩) 0).2.2.1 (by decide) (by decide)

lemma tsOrOpt_of_some (a b : Option String) (v : String) (ha : a = some v) (hv : v ≠ "") :
    tsOrOpt a b = some v := by
  subst ha
  simp [tsOrOpt, hv]

lemma tsOrOpt_of_falsy (a b : Option String) (h : tsTruthy a = false) : tsOrOpt a b = b := by
  cases a with
  | none => rfl
  | some x =>
    simp [tsTruthy] at h
    simp [tsOrOpt, h]

lemma tsStrOr_some (v d : String) (hv : v ≠ "") : tsStrOr (some v) d = v := by
  simp [tsStrOr, hv]

lemma tsStrOr_of_falsy (o : Option String) (d : String) (h : tsTruthy o = false) :
    tsStrOr o d = d := by
  cases o with
  | none => rfl
  | some x =>
    simp [tsTruthy] at h
    simp [tsStrOr, h]

lemma getFirstSourceURL_eq (s : S) (h : s.sourcegraphDotComMode = true) :
    getFirstSourceURL s =
      (cookieSet
          { s with firstSourceURL := some (tsStrOr
              (tsOrOpt s.firstSourceURL (cookieGet s FIRST_SOURCE_URL_KEY))
              s.locationHref.render) }
          FIRST_SOURCE_URL_KEY
          (tsStrOr (tsOrOpt s.firstSourceURL (cookieGet s FIRST_SOURCE_URL_KEY))
            s.locationHref.render)
          cookieTTLms,
        tsStrOr (tsOrOpt s.firstSourceURL (cookieGet s FIRST_SOURCE_URL_KEY))
          s.locationHref.render) := by
  simp only [getFirstSourceURL]
  rw [if_neg (by simp [h])]

lemma getLastSourceURL_eq (s : S) (h : s.sourcegraphDotComMode = true) :
    getLastSourceURL s =
      (cookieSet
          { s with lastSourceURL := some (tsStrOr
              (tsOrOpt s.lastSourceURL (cookieGet s LAST_SOURCE_URL_KEY))
              s.locationHref.render) }
          LAST_SOURCE_URL_KEY
          (tsStrOr (tsOrOpt s.lastSourceURL (cookieGet s LAST_SOURCE_URL_KEY))
            s.locationHref.render)
          cookieTTLms,
        tsStrOr (tsOrOpt s.lastSourceURL (cookieGet s LAST_SOURCE_URL_KEY))
          s.locationHref.render) := by
  simp only [getLastSourceURL]
  rw [if_neg (by simp [h])]

lemma getOriginalReferrer_eq (s : S) (h : s.sourcegraphDotComMode = true) :
    getOriginalReferrer s =
      (cookieSet
          { s with originalReferrer := some (tsStrOr
              (tsOrOpt (tsOrOpt s.originalReferrer (cookieGet s ORIGINAL_REFERRER_KEY))
                (cookieGet s MKTO_ORIGINAL_REFERRER_KEY))
              s.documentReferrer) }
          ORIGINAL_REFERRER_KEY
          (tsStrOr (tsOrOpt (tsOrOpt s.originalReferrer (cookieGet s ORIGINAL_REFERRER_KEY))
              (cookieGet s MKTO_ORIGINAL_REFERRER_KEY))
            s.documentReferrer)
          cookieTTLms,
        tsStrOr (tsOrOpt (tsOrOpt s.originalReferrer (cookieGet s ORIGINAL_REFERRER_KEY))
            (cookieGet s MKTO_ORIGINAL_REFERRER_KEY))
          s.documentReferrer) := by
  simp only [getOriginalReferrer]
  rw [if_neg (by simp [h])]

lemma getSessionReferrer_eq (s : S) (h : s.sourcegraphDotComMode = true) :
    getSessionReferrer s =
      (cookieSet
          { s with sessionReferrer := some (tsStrOr
              (tsOrOpt s.sessionReferrer (cookieGet s SESSION_REFERRER_KEY))
              s.documentReferrer) }
          SESSION_REFERRER_KEY
          (tsStrOr (tsOrOpt s.sessionReferrer (cookieGet s SESSION_REFERRER_KEY))
            s.documentReferrer)
          deviceSessionTTLms,
        tsStrOr (tsOrOpt s.sessionReferrer (cookieGet s SESSION_REFERRER_KEY))
          s.documentReferrer) := by
  simp only [getSessionReferrer]
  rw [if_neg (by simp [h])]

lemma getSessionFirstURL_eq (s : S) (h : s.sourcegraphDotComMode = true) :
    getSessionFirstURL s =
      (cookieSet
          { s with sessionFirstURL := some (tsStrOr
              (tsOrOpt s.sessionFirstURL (cookieGet s SESSION_FIRST_URL_KEY))
              s.locationHref.render) }
          SESSION_FIRST_URL_KEY
          (tsStrOr (tsOrOpt s.sessionFirstURL (cookieGet s SESSION_FIRST_URL_KEY))
            s.locationHref.render)
          deviceSessionTTLms,
        tsStrOr (tsOrOpt s.sessionFirstURL (cookieGet s SESSION_FIRST_URL_KEY))
          s.locationHref.render) := by
  simp only [getSessionFirstURL]
  rw [if_neg (by simp [h])]

/-- C2 counterexample: with the in-memory device-session cache set to `a`
and the backing cookie record holding `b`, `getDeviceSessionID` returns `b` —
the accessor consults the backing record even though the cache is set, so the
claimed cache-first order is false for this accessor. -/
theorem accessor_cache_first_counterexample :
    ({ baseS with
        deviceSessionID := some "a"
        cookies := [("sourcegraphSessionId", ⟨"b", 0⟩)] } : S).deviceSessionID = some "a" ∧
      (getDeviceSessionID { baseS with
        deviceSessionID := some "a"
        cookies := [("sourcegraphSessionId", ⟨"b", 0⟩)] }).2 = "b" := by
  decide

/-- C2 amended: in dotcom mode, the five attribution/session accessors
(`firstSourceUrl`, `lastSourceUrl`, `originalReferrer`, `sessionReferrer`,
`sessionFirstUrl`) follow the cache-first read-through pattern — return the
set cache, else the backing record, else the domain default (with the legacy
`_mkto_referrer` record as a middle fallback for `originalReferrer`) — and on
every resolution write the value back to the backing record and cache it.
`deviceSessionId` instead consults the backing record first and uses the
cache only when the record is unset, defaulting to the anonymous id, and it
writes back and caches in every mode. -/
theorem session_accessors_read_through (s : S) :
    (s.sourcegraphDotComMode = true →
      (∀ v, s.firstSourceURL = some v → v ≠ "" → (getFirstSourceURL s).2 = v) ∧
      (∀ w, tsTruthy s.firstSourceURL = false → cookieGet s FIRST_SOURCE_URL_KEY = some w →
        w ≠ "" → (getFirstSourceURL s).2 = w) ∧
      (tsTruthy s.firstSourceURL = false → tsTruthy (cookieGet s FIRST_SOURCE_URL_KEY) = false →
        (getFirstSourceURL s).2 = s.locationHref.render) ∧
      cookieGet (getFirstSourceURL s).1 FIRST_SOURCE_URL_KEY = some (getFirstSourceURL s).2 ∧
      (getFirstSourceURL s).1.firstSourceURL = some (getFirstSourceURL s).2) ∧
    (s.sourcegraphDotComMode = true →
      (∀ v, s.lastSourceURL = some v → v ≠ "" → (getLastSourceURL s).2 = v) ∧
      (∀ w, tsTruthy s.lastSourceURL = false → cookieGet s LAST_SOURCE_URL_KEY = some w →
        w ≠ "" → (getLastSourceURL s).2 = w) ∧
      (tsTruthy s.lastSourceURL = false → tsTruthy (cookieGet s LAST_SOURCE_URL_KEY) = false →
        (getLastSourceURL s).2 = s.locationHref.render) ∧
      cookieGet (getLastSourceURL s).1 LAST_SOURCE_URL_KEY = some (getLastSourceURL s).2 ∧
      (getLastSourceURL s).1.lastSourceURL = some (getLastSourceURL s).2) ∧
    (s.sourcegraphDotComMode = true →
      (∀ v, s.originalReferrer = some v → v ≠ "" → (getOriginalReferrer s).2 = v) ∧
      (∀ w, tsTruthy s.originalReferrer = false → cookieGet s ORIGINAL_REFERRER_KEY = some w →
        w ≠ "" → (getOriginalReferrer s).2 = w) ∧
      (∀ w, tsTruthy s.originalReferrer = false →
        tsTruthy (cookieGet s ORIGINAL_REFERRER_KEY) = false →
        cookieGet s MKTO_ORIGINAL_REFERRER_KEY = some w → w ≠ "" →
        (getOriginalReferrer s).2 = w) ∧
      (tsTruthy s.originalReferrer = false →
        tsTruthy (cookieGet s ORIGINAL_REFERRER_KEY) = false →
        tsTruthy (cookieGet s MKTO_ORIGINAL_REFERRER_KEY) = false →
        (getOriginalReferrer s).2 = s.documentReferrer) ∧
      cookieGet (getOriginalReferrer s).1 ORIGINAL_REFERRER_KEY =
        some (getOriginalReferrer s).2 ∧
      (getOriginalReferrer s).1.originalReferrer = some (getOriginalReferrer s).2) ∧
    (s.sourcegraphDotComMode = true →
      (∀ v, s.sessionReferrer = some v → v ≠ "" → (getSessionReferrer s).2 = v) ∧
      (∀ w, tsTruthy s.sessionReferrer = false → cookieGet s SESSION_REFERRER_KEY = some w →
        w ≠ "" → (getSessionReferrer s).2 = w) ∧
      (tsTruthy s.sessionReferrer = false → tsTruthy (cookieGet s SESSION_REFERRER_KEY) = false →
        (getSessionReferrer s).2 = s.documentReferrer) ∧
      cookieGet (getSessionReferrer s).1 SESSION_REFERRER_KEY = some (getSessionReferrer s).2 ∧
      (getSessionReferrer s).1.sessionReferrer = some (getSessionReferrer s).2) ∧
    (s.sourcegraphDotComMode = true →
      (∀ v, s.sessionFirstURL = some v → v ≠ "" → (getSessionFirstURL s).2 = v) ∧
      (∀ w, tsTruthy s.sessionFirstURL = false → cookieGet s SESSION_FIRST_URL_KEY = some w →
        w ≠ "" → (getSessionFirstURL s).2 = w) ∧
      (tsTruthy s.sessionFirstURL = false →
        tsTruthy (cookieGet s SESSION_FIRST_URL_KEY) = false →
        (getSessionFirstURL s).2 = s.locationHref.render) ∧
      cookieGet (getSessionFirstURL s).1 SESSION_FIRST_URL_KEY =
        some (getSessionFirstURL s).2 ∧
      (getSessionFirstURL s).1.sessionFirstURL = some (getSessionFirstURL s).2) ∧
    ((∀ w, cookieGet s DEVICE_SESSION_ID_KEY = some w → w ≠ "" →
        (getDeviceSessionID s).2 = w) ∧
      (∀ v, tsTruthy (cookieGet s DEVICE_SESSION_ID_KEY) = false → s.deviceSessionID = some v →
        v ≠ "" → (getDeviceSessionID s).2 = v) ∧
      (tsTruthy (cookieGet s DEVICE_SESSION_ID_KEY) = false →
        tsTruthy s.deviceSessionID = false →
        (getDeviceSessionID s).2 = s.anonymousUserID) ∧
      cookieGet (getDeviceSessionID s).1 DEVICE_SESSION_ID_KEY =
        some (getDeviceSessionID s).2 ∧
      (getDeviceSessionID s).1.deviceSessionID = some (getDeviceSessionID s).2) := by
  refine ⟨fun hdc => ⟨?_, ?_, ?_, ?_, ?_⟩, fun hdc => ⟨?_, ?_, ?_, ?_, ?_⟩,
    fun hdc => ⟨?_, ?_, ?_, ?_, ?_, ?_⟩, fun hdc => ⟨?_, ?_, ?_, ?_, ?_⟩,
    fun hdc => ⟨?_, ?_, ?_, ?_, ?_⟩, ⟨?_, ?_, ?_, ?_, ?_⟩⟩
  · intro v hv hne
    rw [getFirstSourceURL_eq s hdc, tsOrOpt_of_some _ _ _ hv hne, tsStrOr_some _ _ hne]
  · intro w hf hw hne
    rw [getFirstSourceURL_eq s hdc, tsOrOpt_of_falsy _ _ hf, hw, tsStrOr_some _ _ hne]
  · intro hf hc
    rw [getFirstSourceURL_eq s hdc, tsOrOpt_of_falsy _ _ hf, tsStrOr_of_falsy _ _ hc]
  · rw [getFirstSourceURL_eq s hdc]
    exact cookieGet_set_self _ _ _ _
  · rw [getFirstSourceURL_eq s hdc]
    simp
  · intro v hv hne
    rw [getLastSourceURL_eq s hdc, tsOrOpt_of_some _ _ _ hv hne, tsStrOr_some _ _ hne]
  · intro w hf hw hne
    rw [getLastSourceURL_eq s hdc, tsOrOpt_of_falsy _ _ hf, hw, tsStrOr_some _ _ hne]
  · intro hf hc
    rw [getLastSourceURL_eq s hdc, tsOrOpt_of_falsy _ _ hf, tsStrOr_of_falsy _ _ hc]
  · rw [getLastSourceURL_eq s hdc]
    exact cookieGet_set_self _ _ _ _
  · rw [getLastSourceURL_eq s hdc]
    simp
  · intro v hv hne
    rw [getOriginalReferrer_eq s hdc, tsOrOpt_of_some _ _ _ hv hne,
      tsOrOpt_of_some _ _ _ rfl hne, tsStrOr_some _ _ hne]
  · intro w hf hw hne
    rw [getOriginalReferrer_eq s hdc, tsOrOpt_of_falsy _ _ hf, hw,
      tsOrOpt_of_some _ _ _ rfl hne, tsStrOr_some _ _ hne]
  · intro w hf hc hw hne
    rw [getOriginalReferrer_eq s hdc, tsOrOpt_of_falsy _ _ hf,
      tsOrOpt_of_falsy _ _ hc, hw, tsStrOr_some _ _ hne]
  · intro hf hc hm
    rw [getOriginalReferrer_eq s hdc, tsOrOpt_of_falsy _ _ hf,
      tsOrOpt_of_falsy _ _ hc, tsStrOr_of_falsy _ _ hm]
  · rw [getOriginalReferrer_eq s hdc]
    exact cookieGet_set_self _ _ _ _
  · rw [getOriginalReferrer_eq s hdc]
    simp
  · intro v hv hne
    rw [getSessionReferrer_eq s hdc, tsOrOpt_of_some _ _ _ hv hne, tsStrOr_some _ _ hne]
  · intro w hf hw hne
    rw [getSessionReferrer_eq s hdc, tsOrOpt_of_falsy _ _ hf, hw, tsStrOr_some _ _ hne]
  · intro hf hc
    rw [getSessionReferrer_eq s hdc, tsOrOpt_of_falsy _ _ hf, tsStrOr_of_falsy _ _ hc]
  · rw [getSessionReferrer_eq s hdc]
    exact cookieGet_set_self _ _ _ _
  · rw [getSessionReferrer_eq s hdc]
    simp
  · intro v hv hne
    rw [getSessionFirstURL_eq s hdc, tsOrOpt_of_some _ _ _ hv hne, tsStrOr_some _ _ hne]
  · intro w hf hw hne
    rw [getSessionFirstURL_eq s hdc, tsOrOpt_of_falsy _ _ hf, hw, tsStrOr_some _ _ hne]
  · intro hf hc
    rw [getSessionFirstURL_eq s hdc, tsOrOpt_of_falsy _ _ hf, tsStrOr_of_falsy _ _ hc]
  · rw [getSessionFirstURL_eq s hdc]
    exact cookieGet_set_self _ _ _ _
  · rw [getSessionFirstURL_eq s hdc]
    simp
  · intro w hw hne
    rw [getDeviceSessionID_eq, sessionIdOf, tsOrOpt_of_some _ _ _ hw hne,
      tsStrOr_some _ _ hne]
  · intro v hf hv hne
    rw [getDeviceSessionID_eq, sessionIdOf, tsOrOpt_of_falsy _ _ hf, hv,
      tsStrOr_some _ _ hne]
  · intro hf hc
    rw [getDeviceSessionID_eq, sessionIdOf, tsOrOpt_of_falsy _ _ hf,
      tsStrOr_of_falsy _ _ hc]
  · rw [getDeviceSessionID_eq]
    simp [cookieGet, assocGet]
  · rw [getDeviceSessionID_eq]

/-- C2 witness: the read-through pattern at a concrete dotcom state with a
set cache. -/
theorem session_accessors_read_through_witness :
    (getFirstSourceURL { baseS with firstSourceURL := some "cached" }).2 = "cached" ∧
      (getDeviceSessionID { baseS with deviceSessionID := some "cached" }).2 = "cached" := by
  have h := session_accessors_read_through { baseS with firstSourceURL := some "cached" }
  have h2 := session_accessors_read_through { baseS with deviceSessionID := some "cached" }
  exact ⟨(h.1 rfl).1 "cached" rfl (by decide),
    h2.2.2.2.2.2.2.1 "cached" (by decide) rfl (by decide)⟩

/-- C10 counterexample: in non-dotcom mode, a call to `getFirstSourceURL`
leaves the state untouched and writes no backing record — the claim's
contrast clause "the other accessors write their backing record on every
call" is false at this input. -/
theorem pure_getters_counterexample :
    (getFirstSourceURL { baseS with sourcegraphDotComMode := false }).1 =
        { baseS with sourcegraphDotComMode := false } ∧
      cookieGet (getFirstSourceURL { baseS with sourcegraphDotComMode := false }).1
        FIRST_SOURCE_URL_KEY = none := by
  decide

/-- C10 amended: `getAnonymousUserID`, `getCohortID` and `getDeviceID` are
pure reads in every mode — they return the identity fields resolved at
initialization, perform no store access, and those fields are preserved by
event emission.  By contrast, `getDeviceSessionID` writes its backing record
on every call in every mode, and the five gated accessors write theirs on
every call in dotcom mode but perform no store access at all otherwise. -/
theorem pure_identity_getters (s : S) :
    (getAnonymousUserID s).1 = s ∧ (getAnonymousUserID s).2 = s.anonymousUserID ∧
      (getCohortID s).1 = s ∧ (getCohortID s).2 = s.cohortID ∧
      (getDeviceID s).1 = s ∧ (getDeviceID s).2 = s.deviceID ∧
      (∀ label props, (log s label props).anonymousUserID = s.anonymousUserID ∧
        (log s label props).cohortID = s.cohortID ∧
        (log s label props).deviceID = s.deviceID) ∧
      cookieGet (getDeviceSessionID s).1 DEVICE_SESSION_ID_KEY =
        some (getDeviceSessionID s).2 ∧
      (s.sourcegraphDotComMode = true →
        cookieGet (getFirstSourceURL s).1 FIRST_SOURCE_URL_KEY =
            some (getFirstSourceURL s).2 ∧
          cookieGet (getLastSourceURL s).1 LAST_SOURCE_URL_KEY =
            some (getLastSourceURL s).2 ∧
          cookieGet (getOriginalReferrer s).1 ORIGINAL_REFERRER_KEY =
            some (getOriginalReferrer s).2 ∧
          cookieGet (getSessionReferrer s).1 SESSION_REFERRER_KEY =
            some (getSessionReferrer s).2 ∧
          cookieGet (getSessionFirstURL s).1 SESSION_FIRST_URL_KEY =
            some (getSessionFirstURL s).2) ∧
      (s.sourcegraphDotComMode = false →
        (getFirstSourceURL s).1 = s ∧ (getLastSourceURL s).1 = s ∧
          (getOriginalReferrer s).1 = s ∧ (getSessionReferrer s).1 = s ∧
          (getSessionFirstURL s).1 = s) := by
  refine ⟨rfl, rfl, rfl, rfl, rfl, rfl, ?_, ?_, ?_, ?_⟩
  · intro label props
    exact ⟨log_anon s label props, log_cohort s label props, log_deviceID s label props⟩
  · rw [getDeviceSessionID_eq]
    simp [cookieGet, assocGet]
  · intro hdc
    refine ⟨?_, ?_, ?_, ?_, ?_⟩
    · rw [getFirstSourceURL_eq s hdc]
      exact cookieGet_set_self _ _ _ _
    · rw [getLastSourceURL_eq s hdc]
      exact cookieGet_set_self _ _ _ _
    · rw [getOriginalReferrer_eq s hdc]
      exact cookieGet_set_self _ _ _ _
    · rw [getSessionReferrer_eq s hdc]
      exact cookieGet_set_self _ _ _ _
    · rw [getSessionFirstURL_eq s hdc]
      exact cookieGet_set_self _ _ _ _
  · intro hnd
    refine ⟨?_, ?_, ?_, ?_, ?_⟩
    · simp only [getFirstSourceURL]
      rw [if_pos hnd]
    · simp only [getLastSourceURL]
      rw [if_pos hnd]
    · simp only [getOriginalReferrer]
      rw [if_pos hnd]
    · simp only [getSessionReferrer]
      rw [if_pos hnd]
    · simp only [getSessionFirstURL]
      rw [if_pos hnd]

/-- C10 witness: the pure getters and one writing accessor at a concrete
state. -/
theorem pure_identity_getters_witness :
    (getAnonymousUserID baseS).1 = baseS ∧
      cookieGet (getFirstSourceURL baseS).1 FIRST_SOURCE_URL_KEY =
        some (getFirstSourceURL baseS).2 := by
  have h := pure_identity_getters baseS
  exact ⟨h.1, (h.2.2.2.2.2.2.2.2.1 rfl).1⟩

/-- C6 witness: preservation of the missing cohort on a concrete state. -/
theorem no_cohort_backfill_witness :
    (initializeLogParameters
        { baseS with cookies := [("sourcegraphAnonymousUid", ⟨"old-id", 99⟩)] }
        "uuid-3").cohortID = none ∧
      cookieGet
        (initializeLogParameters
          { baseS with cookies := [("sourcegraphAnonymousUid", ⟨"old-id", 99⟩)] }
          "uuid-3") COHORT_ID_KEY = none := by
  have h := no_cohort_backfill
    { baseS with cookies := [("sourcegraphAnonymousUid", ⟨"old-id", 99⟩)] }
    "uuid-3" "old-id" (by decide) (by decide) (by decide)
  exact ⟨h.1, h.2.1⟩

end EventLog
